import Mathlib

/-!
Verification of the Estimation Calculator of `app_cost_only.py`.

All numeric quantities are modelled as exact rationals (`ℚ`); Python dicts
keyed by strings become association lists (`List (String × _)`) accessed with
`List.lookup`, so a missing key surfaces as `none` exactly where Python would
raise `KeyError`.
-/

namespace CostEstimator

/-- `MATERIAL_RATES` table (source lines 7–11): per-building-type material
consumption factors. -/
def MATERIAL_RATES : List (String × List (String × ℚ)) :=
  [("Residential", [("cement", 0.5), ("blocks", 10), ("steel", 0.025), ("sand", 0.05), ("granite", 0.03)]),
   ("Commercial",  [("cement", 0.7), ("blocks", 15), ("steel", 0.04), ("sand", 0.07), ("granite", 0.05)]),
   ("Industrial",  [("cement", 1.0), ("blocks", 20), ("steel", 0.06), ("sand", 0.10), ("granite", 0.08)])]

/-- `SHAPE_COMPLEXITY` table (source lines 13–19). -/
def SHAPE_COMPLEXITY : List (String × ℚ) :=
  [("Rectangular", 1.0), ("Square", 1.05), ("L-Shaped", 1.15), ("U-Shaped", 1.2), ("Circular", 1.25)]

/-- `PLANT_RATES` table (source lines 21–25). -/
def PLANT_RATES : List (String × ℚ) :=
  [("Residential", 0.08), ("Commercial", 0.12), ("Industrial", 0.18)]

/-- `LABOR_PRODUCTIVITY_RATES` table (source lines 28–44): hours/m² by phase. -/
def LABOR_PRODUCTIVITY_RATES : List (String × List (String × ℚ)) :=
  [("Residential", [("foundation", 1.2), ("structural", 2.0), ("finishing", 1.5)]),
   ("Commercial",  [("foundation", 1.5), ("structural", 2.5), ("finishing", 2.0)]),
   ("Industrial",  [("foundation", 2.0), ("structural", 3.0), ("finishing", 2.5)])]

/-- `EFFICIENCY_FACTORS` table (source lines 47–58). -/
def EFFICIENCY_FACTORS : List (String × List (String × ℚ)) :=
  [("crew_size", [("Small", 0.9), ("Medium", 1.0), ("Large", 1.1)]),
   ("weather",   [("Good", 1.0), ("Average", 0.9), ("Poor", 0.8)])]

/-- `RISK_FACTORS` table (source line 60). -/
def RISK_FACTORS : List (String × ℚ) :=
  [("prelim", 0.05), ("cont", 0.075), ("design", 0.02)]

/-- `OVERHEAD_PROFIT` constant (source line 63). -/
def OVERHEAD_PROFIT : ℚ := 0.15

/-- `calculate_gfa` (source lines 91–94):
`length * breadth * storeys * SHAPE_COMPLEXITY[shape]`. -/
def calculate_gfa (length breadth : ℚ) (storeys : ℕ) (shape : String) : Option ℚ := do
  let base_area := length * breadth * (storeys : ℚ)
  let shape_multiplier ← SHAPE_COMPLEXITY.lookup shape
  pure (base_area * shape_multiplier)

/-- The local `soil_map` dict of `calculate_site_difficulty` (source line 97). -/
def soil_map : List (String × ℚ) := [("Rocky", 1.5), ("Sandy", 1.2), ("Clay", 1.0)]

/-- The local `access_map` dict of `calculate_site_difficulty` (source line 98). -/
def access_map : List (String × ℚ) := [("Poor", 1.4), ("Average", 1.1), ("Good", 1.0)]

/-- `calculate_site_difficulty` (source lines 96–99):
`soil_map[soil] * access_map[access]`. -/
def calculate_site_difficulty (soil access : String) : Option ℚ := do
  let s ← soil_map.lookup soil
  let a ← access_map.lookup access
  pure (s * a)

/-- The crew-size key chosen inline in `calculate_labor_hours` (source lines
108–110): `'Medium' if 15 <= crew_size <= 30 else 'Large' if crew_size > 30
else 'Small'`. -/
def crew_size_key (crew_size : ℕ) : String :=
  if 15 ≤ crew_size ∧ crew_size ≤ 30 then "Medium"
  else if 30 < crew_size then "Large"
  else "Small"

/-- `calculate_labor_hours` (source lines 101–113). -/
def calculate_labor_hours (gfa : ℚ) (building_type : String) (crew_size : ℕ)
    (weather_condition : String) : Option ℚ := do
  let rates ← LABOR_PRODUCTIVITY_RATES.lookup building_type
  let f ← rates.lookup "foundation"
  let s ← rates.lookup "structural"
  let fin ← rates.lookup "finishing"
  let base_hours := [f, s, fin].sum * gfa
  let crew_map ← EFFICIENCY_FACTORS.lookup "crew_size"
  let crew_efficiency ← crew_map.lookup (crew_size_key crew_size)
  let weather_map ← EFFICIENCY_FACTORS.lookup "weather"
  let weather_efficiency ← weather_map.lookup weather_condition
  pure (base_hours / (crew_efficiency * weather_efficiency))

/-- `labor_cost` (source line 172): `labor_hours * labor_rate * (1 + OVERHEAD_PROFIT)`. -/
def labor_cost (labor_hours labor_rate : ℚ) : ℚ :=
  labor_hours * labor_rate * (1 + OVERHEAD_PROFIT)

/-- `material_cost` (source lines 234–240): sum over the five materials of
`price * MATERIAL_RATES[building_type][material] * current_gfa`. -/
def material_cost (cement blocks steel sand granite : ℚ) (building_type : String)
    (current_gfa : ℚ) : Option ℚ := do
  let r ← MATERIAL_RATES.lookup building_type
  let rc ← r.lookup "cement"
  let rb ← r.lookup "blocks"
  let rs ← r.lookup "steel"
  let rsa ← r.lookup "sand"
  let rg ← r.lookup "granite"
  pure ([cement * rc * current_gfa,
         blocks * rb * current_gfa,
         steel * rs * current_gfa,
         sand * rsa * current_gfa,
         granite * rg * current_gfa].sum)

/-- `plant_cost` (source line 242): `(material_cost + labor_cost) * PLANT_RATES[building_type]`. -/
def plant_cost (mc lc : ℚ) (building_type : String) : Option ℚ := do
  let p ← PLANT_RATES.lookup building_type
  pure ((mc + lc) * p)

/-- `base_cost` (source line 243): `material_cost + labor_cost + plant_cost`. -/
def base_cost (mc lc pc : ℚ) : ℚ := mc + lc + pc

/-- `risk_components` (source lines 246–250): each component is
`base_cost * RISK_FACTORS[key]`. -/
def risk_components (bc : ℚ) : Option (List (String × ℚ)) := do
  let c ← RISK_FACTORS.lookup "cont"
  let p ← RISK_FACTORS.lookup "prelim"
  let d ← RISK_FACTORS.lookup "design"
  pure [("Contingencies", bc * c), ("Preliminaries", bc * p), ("Design Risk", bc * d)]

/-- `vertical_complexity` (source line 177): `storeys * 0.25`. -/
def vertical_complexity (storeys : ℕ) : ℚ := (storeys : ℚ) * 0.25

/-- A cell of the model's feature record: either a numeric or a categorical
(string) value, mirroring the mixed-type columns of the pandas row. -/
inductive FeatureValue where
  | num : ℚ → FeatureValue
  | str : String → FeatureValue
deriving DecidableEq

/-- The `input_data` feature record (source lines 180–202), as an ordered list
of named fields. -/
def input_data (length breadth : ℚ) (storeys : ℕ)
    (shape building_type location soil access weather : String)
    (cement blocks steel sand granite labor_rate lab_cost : ℚ)
    (workers permit : ℕ) (site_difficulty shape_complexity vert : ℚ) :
    List (String × FeatureValue) :=
  [("Length", .num length),
   ("Breadth", .num breadth),
   ("Storeys", .num (storeys : ℚ)),
   ("Shape", .str shape),
   ("Type", .str building_type),
   ("Location", .str location),
   ("Soil", .str soil),
   ("Access", .str access),
   ("Weather", .str weather),
   ("Cement_Price", .num cement),
   ("Block_Price", .num blocks),
   ("Steel_Price", .num steel),
   ("Sand_Price", .num sand),
   ("Granite_Price", .num granite),
   ("Labor_Rate", .num labor_rate),
   ("Labor_Cost", .num lab_cost),
   ("Workers", .num (workers : ℚ)),
   ("Permit_Months", .num (permit : ℚ)),
   ("Site_Difficulty", .num site_difficulty),
   ("Shape_Complexity", .num shape_complexity),
   ("Vertical_Complexity", .num vert)]

/-- The submit handler's assembly of the feature record (source lines
165–202): computes GFA, labor hours, labor cost, site difficulty, shape
complexity and vertical complexity, then builds `input_data`. -/
def assembled_record (length breadth : ℚ) (storeys : ℕ)
    (shape building_type location soil access weather : String)
    (cement blocks steel sand granite labor_rate : ℚ)
    (workers permit : ℕ) : Option (List (String × FeatureValue)) := do
  let current_gfa ← calculate_gfa length breadth storeys shape
  let labor_hours ← calculate_labor_hours current_gfa building_type workers weather
  let lab_cost := labor_cost labor_hours labor_rate
  let site_difficulty ← calculate_site_difficulty soil access
  let shape_complexity ← SHAPE_COMPLEXITY.lookup shape
  let vert := vertical_complexity storeys
  pure (input_data length breadth storeys shape building_type location soil access weather
    cement blocks steel sand granite labor_rate lab_cost workers permit
    site_difficulty shape_complexity vert)

/-- The model invocation (source lines 205–206):
`total_cost = model.predict(preprocessor.transform(input_data))[0]`, with the
preprocessor and model as opaque functions. -/
def generate_estimate {V : Type} (transform : List (String × FeatureValue) → V)
    (predict : V → ℚ) (length breadth : ℚ) (storeys : ℕ)
    (shape building_type location soil access weather : String)
    (cement blocks steel sand granite labor_rate : ℚ)
    (workers permit : ℕ) : Option ℚ :=
  (assembled_record length breadth storeys shape building_type location soil access weather
    cement blocks steel sand granite labor_rate workers permit).map
    (fun r => predict (transform r))

/-! ### Spec-side definitions for refinement comparison

`calculate_labor_hours` selects a crew-size *key* and looks it up; the spec
instead describes the crew efficiency directly as a step function of crew
size, and the weather efficiency as a direct lookup.  The following
definitions transcribe the spec's words, to be compared with the code. -/

/-- Spec-side crew efficiency: crew size ≤14 → Small (0.9), 15–30 → Medium
(1.0), above 30 → Large (1.1). -/
def spec_crew_efficiency (c : ℕ) : ℚ :=
  if c ≤ 14 then 0.9 else if c ≤ 30 then 1 else 1.1

/-- Spec-side weather efficiency: the direct table lookup for the weather key. -/
def spec_weather_efficiency (w : String) : ℚ :=
  if w = "Good" then 1 else if w = "Average" then 0.9 else 0.8

/-- Spec-side sum of the three per-phase productivity rates of a building type. -/
def productivity_sum (bt : String) : ℚ :=
  if bt = "Residential" then 4.7 else if bt = "Commercial" then 6 else 7.5

/-! ### Helper lemmas about the concrete tables -/

lemma lookup_eq_none_iff {β : Type} (l : List (String × β)) (k : String) :
    l.lookup k = none ↔ k ∉ l.map Prod.fst := by
  induction l with
  | nil => simp [List.lookup]
  | cons a t ih =>
    obtain ⟨ka, va⟩ := a
    simp only [List.lookup, List.map_cons, List.mem_cons]
    by_cases h : k = ka
    · subst h; simp
    · have hb : (k == ka) = false := by simp [h]
      simp [hb, ih, h]

lemma mr_res : MATERIAL_RATES.lookup "Residential" =
    some [("cement", 0.5), ("blocks", 10), ("steel", 0.025), ("sand", 0.05), ("granite", 0.03)] := rfl

lemma mr_com : MATERIAL_RATES.lookup "Commercial" =
    some [("cement", 0.7), ("blocks", 15), ("steel", 0.04), ("sand", 0.07), ("granite", 0.05)] := rfl

lemma mr_ind : MATERIAL_RATES.lookup "Industrial" =
    some [("cement", 1.0), ("blocks", 20), ("steel", 0.06), ("sand", 0.10), ("granite", 0.08)] := rfl

lemma lpr_res : LABOR_PRODUCTIVITY_RATES.lookup "Residential" =
    some [("foundation", 1.2), ("structural", 2.0), ("finishing", 1.5)] := rfl

lemma lpr_com : LABOR_PRODUCTIVITY_RATES.lookup "Commercial" =
    some [("foundation", 1.5), ("structural", 2.5), ("finishing", 2.0)] := rfl

lemma lpr_ind : LABOR_PRODUCTIVITY_RATES.lookup "Industrial" =
    some [("foundation", 2.0), ("structural", 3.0), ("finishing", 2.5)] := rfl

lemma eff_crew : EFFICIENCY_FACTORS.lookup "crew_size" =
    some [("Small", 0.9), ("Medium", 1.0), ("Large", 1.1)] := rfl

lemma eff_weather : EFFICIENCY_FACTORS.lookup "weather" =
    some [("Good", 1.0), ("Average", 0.9), ("Poor", 0.8)] := rfl

/-- The crew-map lookup of the selected crew-size key always succeeds and
returns exactly the spec's step function of the crew size. -/
lemma crew_lookup (c : ℕ) :
    List.lookup (crew_size_key c) [("Small", (0.9:ℚ)), ("Medium", 1.0), ("Large", 1.1)] =
      some (spec_crew_efficiency c) := by
  unfold crew_size_key spec_crew_efficiency
  by_cases h1 : 15 ≤ c ∧ c ≤ 30
  · rw [if_pos h1, if_neg (by omega : ¬ c ≤ 14), if_pos h1.2]
    rw [show List.lookup "Medium" [("Small", (0.9:ℚ)), ("Medium", 1.0), ("Large", 1.1)] = some 1.0 from rfl]
    norm_num
  · rw [if_neg h1]
    by_cases h2 : 30 < c
    · rw [if_pos h2, if_neg (by omega : ¬ c ≤ 14), if_neg (by omega : ¬ c ≤ 30)]
      rw [show List.lookup "Large" [("Small", (0.9:ℚ)), ("Medium", 1.0), ("Large", 1.1)] = some 1.1 from rfl]
    · rw [if_neg h2, if_pos (by omega : c ≤ 14)]
      rw [show List.lookup "Small" [("Small", (0.9:ℚ)), ("Medium", 1.0), ("Large", 1.1)] = some 0.9 from rfl]

/-- Enumeration of successful weather lookups. -/
lemma weather_lookup_cases (w : String) (we : ℚ)
    (h : List.lookup w [("Good", (1.0:ℚ)), ("Average", 0.9), ("Poor", 0.8)] = some we) :
    (w = "Good" ∧ we = 1) ∨ (w = "Average" ∧ we = 0.9) ∨ (w = "Poor" ∧ we = 0.8) := by
  by_cases h1 : w = "Good"
  · subst h1; simp [List.lookup] at h; norm_num [← h]
  · by_cases h2 : w = "Average"
    · subst h2; simp [List.lookup] at h; norm_num [← h]
    · by_cases h3 : w = "Poor"
      · subst h3; simp [List.lookup] at h; norm_num [← h]
      · have e1 : (w == "Good") = false := by simp [h1]
        have e2 : (w == "Average") = false := by simp [h2]
        have e3 : (w == "Poor") = false := by simp [h3]
        simp [List.lookup, e1, e2, e3] at h

/-- Enumeration of successful productivity-table lookups. -/
lemma lpr_lookup_cases (bt : String) (r : List (String × ℚ))
    (h : LABOR_PRODUCTIVITY_RATES.lookup bt = some r) :
    (bt = "Residential" ∧ r = [("foundation", 1.2), ("structural", 2.0), ("finishing", 1.5)]) ∨
    (bt = "Commercial" ∧ r = [("foundation", 1.5), ("structural", 2.5), ("finishing", 2.0)]) ∨
    (bt = "Industrial" ∧ r = [("foundation", 2.0), ("structural", 3.0), ("finishing", 2.5)]) := by
  by_cases h1 : bt = "Residential"
  · subst h1; rw [lpr_res] at h; exact Or.inl ⟨rfl, (Option.some.injEq _ _ ▸ h).symm⟩
  · by_cases h2 : bt = "Commercial"
    · subst h2; rw [lpr_com] at h; exact Or.inr (Or.inl ⟨rfl, (Option.some.injEq _ _ ▸ h).symm⟩)
    · by_cases h3 : bt = "Industrial"
      · subst h3; rw [lpr_ind] at h; exact Or.inr (Or.inr ⟨rfl, (Option.some.injEq _ _ ▸ h).symm⟩)
      · have e1 : (bt == "Residential") = false := by simp [h1]
        have e2 : (bt == "Commercial") = false := by simp [h2]
        have e3 : (bt == "Industrial") = false := by simp [h3]
        simp [LABOR_PRODUCTIVITY_RATES, List.lookup, e1, e2, e3] at h

/-- Closed form of `calculate_labor_hours` for recognized building type and
weather: the code equals the spec's step-function formulation. -/
lemma clh_eq (gfa : ℚ) (bt : String)
    (hbt : bt = "Residential" ∨ bt = "Commercial" ∨ bt = "Industrial")
    (c : ℕ) (w : String) (hw : w = "Good" ∨ w = "Average" ∨ w = "Poor") :
    calculate_labor_hours gfa bt c w =
      some (productivity_sum bt * gfa /
        (spec_crew_efficiency c * spec_weather_efficiency w)) := by
  rcases hbt with hbt | hbt | hbt <;> subst hbt <;>
    rcases hw with hw | hw | hw <;> subst hw <;>
    simp only [calculate_labor_hours, lpr_res, lpr_com, lpr_ind, eff_crew, eff_weather,
      crew_lookup, Option.bind_eq_bind, Option.some_bind, Option.pure_def,
      show List.lookup "foundation" [("foundation", (1.2:ℚ)), ("structural", 2.0), ("finishing", 1.5)] = some 1.2 from rfl,
      show List.lookup "structural" [("foundation", (1.2:ℚ)), ("structural", 2.0), ("finishing", 1.5)] = some 2.0 from rfl,
      show List.lookup "finishing" [("foundation", (1.2:ℚ)), ("structural", 2.0), ("finishing", 1.5)] = some 1.5 from rfl,
      show List.lookup "foundation" [("foundation", (1.5:ℚ)), ("structural", 2.5), ("finishing", 2.0)] = some 1.5 from rfl,
      show List.lookup "structural" [("foundation", (1.5:ℚ)), ("structural", 2.5), ("finishing", 2.0)] = some 2.5 from rfl,
      show List.lookup "finishing" [("foundation", (1.5:ℚ)), ("structural", 2.5), ("finishing", 2.0)] = some 2.0 from rfl,
      show List.lookup "foundation" [("foundation", (2.0:ℚ)), ("structural", 3.0), ("finishing", 2.5)] = some 2.0 from rfl,
      show List.lookup "structural" [("foundation", (2.0:ℚ)), ("structural", 3.0), ("finishing", 2.5)] = some 3.0 from rfl,
      show List.lookup "finishing" [("foundation", (2.0:ℚ)), ("structural", 3.0), ("finishing", 2.5)] = some 2.5 from rfl,
      show List.lookup "Good" [("Good", (1.0:ℚ)), ("Average", 0.9), ("Poor", 0.8)] = some 1.0 from rfl,
      show List.lookup "Average" [("Good", (1.0:ℚ)), ("Average", 0.9), ("Poor", 0.8)] = some 0.9 from rfl,
      show List.lookup "Poor" [("Good", (1.0:ℚ)), ("Average", 0.9), ("Poor", 0.8)] = some 0.8 from rfl,
      Option.some.injEq] <;>
    simp only [productivity_sum, spec_weather_efficiency, String.reduceEq, reduceIte] <;>
    norm_num

lemma sc_rect : SHAPE_COMPLEXITY.lookup "Rectangular" = some 1.0 := rfl

lemma soil_rocky : soil_map.lookup "Rocky" = some 1.5 := rfl

lemma access_poor : access_map.lookup "Poor" = some 1.4 := rfl

lemma rk_cont : RISK_FACTORS.lookup "cont" = some 0.075 := rfl

lemma rk_prelim : RISK_FACTORS.lookup "prelim" = some 0.05 := rfl

lemma rk_design : RISK_FACTORS.lookup "design" = some 0.02 := rfl

/-! ### Claims -/

/-- C2: for every positive length, breadth and storey count and every shape
key recognized by the shape-complexity table, `calculate_gfa` returns exactly
length × breadth × storeys × shape-complexity-multiplier, with no rounding;
in particular length 20, breadth 15, storeys 2, Rectangular yields 600. -/
theorem c2_gfa_formula (length breadth : ℚ) (hl : 0 < length) (hb : 0 < breadth)
    (storeys : ℕ) (hst : 0 < storeys) (shape : String) (m : ℚ)
    (hm : SHAPE_COMPLEXITY.lookup shape = some m) :
    calculate_gfa length breadth storeys shape =
      some (length * breadth * (storeys : ℚ) * m) ∧
    calculate_gfa 20 15 2 "Rectangular" = some 600 := by
  constructor
  · simp only [calculate_gfa, hm, Option.bind_eq_bind, Option.some_bind, Option.pure_def]
  · simp only [calculate_gfa, sc_rect, Option.bind_eq_bind, Option.some_bind, Option.pure_def]
    norm_num

/-- Witness for C2 at length 20, breadth 15, storeys 2, shape Rectangular. -/
theorem c2_gfa_formula_witness :
    (0:ℚ) < 20 ∧ (0:ℚ) < 15 ∧ 0 < 2 ∧
    SHAPE_COMPLEXITY.lookup "Rectangular" = some 1.0 ∧
    (calculate_gfa 20 15 2 "Rectangular" = some (20 * 15 * ((2:ℕ) : ℚ) * 1.0) ∧
     calculate_gfa 20 15 2 "Rectangular" = some 600) :=
  ⟨by norm_num, by norm_num, by norm_num, sc_rect,
   c2_gfa_formula 20 15 (by norm_num) (by norm_num) 2 (by norm_num) "Rectangular" 1.0 sc_rect⟩

/-- C5: for every base cost, the three risk components are each an independent
fixed percentage of base cost — contingency 0.075, preliminaries 0.05, design
risk 0.02, not compounding — and their sum equals base cost × 0.145. -/
theorem c5_risk_components (bc : ℚ) :
    ∃ l, risk_components bc = some l ∧
      l = [("Contingencies", bc * 0.075), ("Preliminaries", bc * 0.05),
           ("Design Risk", bc * 0.02)] ∧
      (l.map Prod.snd).sum = bc * (0.075 + 0.05 + 0.02) ∧
      (l.map Prod.snd).sum = bc * 0.145 := by
  refine ⟨_, ?_, rfl, ?_, ?_⟩
  · simp only [risk_components, rk_cont, rk_prelim, rk_design, Option.bind_eq_bind,
      Option.some_bind, Option.pure_def]
  · simp only [List.map_cons, List.map_nil, List.sum_cons, List.sum_nil]
    ring
  · simp only [List.map_cons, List.map_nil, List.sum_cons, List.sum_nil]
    ring_nf

/-- C6: for every recognized soil key and access key,
`calculate_site_difficulty` returns exactly the product of the two independent
lookups; in particular Rocky with Poor yields 1.5 × 1.4 = 2.1. -/
theorem c6_site_difficulty (soil access : String) (s a : ℚ)
    (hs : soil_map.lookup soil = some s) (ha : access_map.lookup access = some a) :
    calculate_site_difficulty soil access = some (s * a) ∧
    calculate_site_difficulty "Rocky" "Poor" = some (1.5 * 1.4) ∧
    calculate_site_difficulty "Rocky" "Poor" = some 2.1 := by
  refine ⟨?_, ?_, ?_⟩
  · simp only [calculate_site_difficulty, hs, ha, Option.bind_eq_bind, Option.some_bind,
      Option.pure_def]
  · simp only [calculate_site_difficulty, soil_rocky, access_poor, Option.bind_eq_bind,
      Option.some_bind, Option.pure_def]
  · simp only [calculate_site_difficulty, soil_rocky, access_poor, Option.bind_eq_bind,
      Option.some_bind, Option.pure_def]
    norm_num

/-- Witness for C6 at soil Rocky, access Poor. -/
theorem c6_site_difficulty_witness :
    soil_map.lookup "Rocky" = some 1.5 ∧
    access_map.lookup "Poor" = some 1.4 ∧
    (calculate_site_difficulty "Rocky" "Poor" = some (1.5 * 1.4) ∧
     calculate_site_difficulty "Rocky" "Poor" = some (1.5 * 1.4) ∧
     calculate_site_difficulty "Rocky" "Poor" = some 2.1) :=
  ⟨soil_rocky, access_poor,
   c6_site_difficulty "Rocky" "Poor" 1.5 1.4 soil_rocky access_poor⟩

lemma sce_pos (c : ℕ) : 0 < spec_crew_efficiency c := by
  unfold spec_crew_efficiency
  split_ifs <;> norm_num

lemma sce_cases (c : ℕ) : spec_crew_efficiency c = 0.9 ∨ spec_crew_efficiency c = 1 ∨
    spec_crew_efficiency c = 1.1 := by
  unfold spec_crew_efficiency
  split_ifs <;> norm_num

lemma sce_le_one (c : ℕ) (h : c ≤ 30) : spec_crew_efficiency c ≤ 1 := by
  unfold spec_crew_efficiency
  split_ifs <;> first | norm_num | omega

lemma sce_large (c : ℕ) (h : 30 < c) : spec_crew_efficiency c = 1.1 := by
  unfold spec_crew_efficiency
  rw [if_neg (by omega), if_neg (by omega)]

lemma ps_pos (bt : String)
    (hbt : bt = "Residential" ∨ bt = "Commercial" ∨ bt = "Industrial") :
    0 < productivity_sum bt := by
  rcases hbt with rfl | rfl | rfl <;>
    simp only [productivity_sum, String.reduceEq, reduceIte] <;> norm_num

lemma swe_pos (w : String) (hw : w = "Good" ∨ w = "Average" ∨ w = "Poor") :
    0 < spec_weather_efficiency w := by
  rcases hw with rfl | rfl | rfl <;>
    simp only [spec_weather_efficiency, String.reduceEq, reduceIte] <;> norm_num

lemma swe_poor : spec_weather_efficiency "Poor" = 0.8 := by
  simp only [spec_weather_efficiency, String.reduceEq, reduceIte]

lemma swe_avg : spec_weather_efficiency "Average" = 0.9 := by
  simp only [spec_weather_efficiency, String.reduceEq, reduceIte]

lemma swe_good : spec_weather_efficiency "Good" = 1 := by
  simp only [spec_weather_efficiency, reduceIte]

/-- C3: for every positive gross floor area, recognized building type,
recognized weather key and crew size, `calculate_labor_hours` returns
(foundation + structural + finishing rate) × area divided by
(crew efficiency × weather efficiency), where crew efficiency is the step
function ≤14 → 0.9, 15–30 → 1.0, >30 → 1.1 and weather efficiency is the
direct table lookup. -/
theorem c3_labor_hours_formula (gfa : ℚ) (hg : 0 < gfa) (bt : String)
    (r : List (String × ℚ)) (hbt : LABOR_PRODUCTIVITY_RATES.lookup bt = some r)
    (f s fi : ℚ) (hf : r.lookup "foundation" = some f)
    (hs : r.lookup "structural" = some s) (hfi : r.lookup "finishing" = some fi)
    (wm : List (String × ℚ)) (hwm : EFFICIENCY_FACTORS.lookup "weather" = some wm)
    (w : String) (we : ℚ) (hw : wm.lookup w = some we) (c : ℕ) :
    calculate_labor_hours gfa bt c w =
      some ((f + s + fi) * gfa /
        ((if c ≤ 14 then 0.9 else if c ≤ 30 then 1 else 1.1) * we)) := by
  rw [eff_weather] at hwm
  obtain rfl := Option.some.inj hwm
  simp only [calculate_labor_hours, hbt, hf, hs, hfi, eff_crew, eff_weather, crew_lookup, hw,
    Option.bind_eq_bind, Option.some_bind, Option.pure_def, Option.some.injEq,
    List.sum_cons, List.sum_nil, add_zero]
  rw [show (if c ≤ 14 then (0.9:ℚ) else if c ≤ 30 then 1 else 1.1) =
    spec_crew_efficiency c from rfl]
  ring_nf

/-- Witness for C3 at gfa 600, Residential, Good weather, crew 20. -/
theorem c3_labor_hours_formula_witness :
    (0:ℚ) < 600 ∧
    LABOR_PRODUCTIVITY_RATES.lookup "Residential" =
      some [("foundation", 1.2), ("structural", 2.0), ("finishing", 1.5)] ∧
    calculate_labor_hours 600 "Residential" 20 "Good" =
      some ((1.2 + 2.0 + 1.5) * 600 /
        ((if (20:ℕ) ≤ 14 then 0.9 else if (20:ℕ) ≤ 30 then 1 else 1.1) * 1.0)) :=
  ⟨by norm_num, lpr_res,
   c3_labor_hours_formula 600 (by norm_num) "Residential" _ lpr_res
     1.2 2.0 1.5 rfl rfl rfl _ eff_weather "Good" 1.0 rfl 20⟩

/-- C4: all else equal, labor hours strictly decrease when crew size crosses
14→15 and 30→31; better weather (Poor → Average → Good) strictly reduces
hours; and a crew above 30 yields strictly fewer hours than any crew of at
most 30. -/
theorem c4_monotonicity (gfa : ℚ) (hg : 0 < gfa) (bt : String)
    (hbt : bt = "Residential" ∨ bt = "Commercial" ∨ bt = "Industrial")
    (w : String) (hw : w = "Good" ∨ w = "Average" ∨ w = "Poor") :
    (∀ h14 h15, calculate_labor_hours gfa bt 14 w = some h14 →
      calculate_labor_hours gfa bt 15 w = some h15 → h15 < h14) ∧
    (∀ h30 h31, calculate_labor_hours gfa bt 30 w = some h30 →
      calculate_labor_hours gfa bt 31 w = some h31 → h31 < h30) ∧
    (∀ (c : ℕ) hp ha, calculate_labor_hours gfa bt c "Poor" = some hp →
      calculate_labor_hours gfa bt c "Average" = some ha → ha < hp) ∧
    (∀ (c : ℕ) ha hgo, calculate_labor_hours gfa bt c "Average" = some ha →
      calculate_labor_hours gfa bt c "Good" = some hgo → hgo < ha) ∧
    (∀ (c1 c2 : ℕ) h1 h2, c1 ≤ 30 → 30 < c2 →
      calculate_labor_hours gfa bt c1 w = some h1 →
      calculate_labor_hours gfa bt c2 w = some h2 → h2 < h1) := by
  have hps := ps_pos bt hbt
  have hwe := swe_pos w hw
  have hnum : 0 < productivity_sum bt * gfa := mul_pos hps hg
  refine ⟨?_, ?_, ?_, ?_, ?_⟩
  · intro h14 h15 e14 e15
    rw [clh_eq gfa bt hbt 14 w hw, Option.some.injEq] at e14
    rw [clh_eq gfa bt hbt 15 w hw, Option.some.injEq] at e15
    subst e14; subst e15
    rw [show spec_crew_efficiency 14 = 0.9 by norm_num [spec_crew_efficiency],
      show spec_crew_efficiency 15 = 1 by norm_num [spec_crew_efficiency]]
    exact div_lt_div_of_pos_left hnum (mul_pos (by norm_num) hwe)
      (mul_lt_mul_of_pos_right (by norm_num) hwe)
  · intro h30 h31 e30 e31
    rw [clh_eq gfa bt hbt 30 w hw, Option.some.injEq] at e30
    rw [clh_eq gfa bt hbt 31 w hw, Option.some.injEq] at e31
    subst e30; subst e31
    rw [show spec_crew_efficiency 30 = 1 by norm_num [spec_crew_efficiency],
      show spec_crew_efficiency 31 = 1.1 by norm_num [spec_crew_efficiency]]
    exact div_lt_div_of_pos_left hnum (mul_pos (by norm_num) hwe)
      (mul_lt_mul_of_pos_right (by norm_num) hwe)
  · intro c hp ha ep ea
    rw [clh_eq gfa bt hbt c "Poor" (Or.inr (Or.inr rfl)), Option.some.injEq] at ep
    rw [clh_eq gfa bt hbt c "Average" (Or.inr (Or.inl rfl)), Option.some.injEq] at ea
    subst ep; subst ea
    rw [swe_poor, swe_avg]
    exact div_lt_div_of_pos_left hnum (mul_pos (sce_pos c) (by norm_num))
      (mul_lt_mul_of_pos_left (by norm_num) (sce_pos c))
  · intro c ha hgo ea eg
    rw [clh_eq gfa bt hbt c "Average" (Or.inr (Or.inl rfl)), Option.some.injEq] at ea
    rw [clh_eq gfa bt hbt c "Good" (Or.inl rfl), Option.some.injEq] at eg
    subst ea; subst eg
    rw [swe_avg, swe_good]
    exact div_lt_div_of_pos_left hnum (mul_pos (sce_pos c) (by norm_num))
      (mul_lt_mul_of_pos_left (by norm_num) (sce_pos c))
  · intro c1 c2 h1 h2 hc1 hc2 e1 e2
    rw [clh_eq gfa bt hbt c1 w hw, Option.some.injEq] at e1
    rw [clh_eq gfa bt hbt c2 w hw, Option.some.injEq] at e2
    subst e1; subst e2
    rw [sce_large c2 hc2]
    refine div_lt_div_of_pos_left hnum (mul_pos (sce_pos c1) hwe)
      (mul_lt_mul_of_pos_right ?_ hwe)
    exact lt_of_le_of_lt (sce_le_one c1 hc1) (by norm_num)

/-- Witness for C4 at gfa 600, Residential, Good weather. -/
theorem c4_monotonicity_witness :
    (0:ℚ) < 600 ∧
    ((∀ h14 h15, calculate_labor_hours 600 "Residential" 14 "Good" = some h14 →
       calculate_labor_hours 600 "Residential" 15 "Good" = some h15 → h15 < h14) ∧
     (∀ h30 h31, calculate_labor_hours 600 "Residential" 30 "Good" = some h30 →
       calculate_labor_hours 600 "Residential" 31 "Good" = some h31 → h31 < h30) ∧
     (∀ (c : ℕ) hp ha, calculate_labor_hours 600 "Residential" c "Poor" = some hp →
       calculate_labor_hours 600 "Residential" c "Average" = some ha → ha < hp) ∧
     (∀ (c : ℕ) ha hgo, calculate_labor_hours 600 "Residential" c "Average" = some ha →
       calculate_labor_hours 600 "Residential" c "Good" = some hgo → hgo < ha) ∧
     (∀ (c1 c2 : ℕ) h1 h2, c1 ≤ 30 → 30 < c2 →
       calculate_labor_hours 600 "Residential" c1 "Good" = some h1 →
       calculate_labor_hours 600 "Residential" c2 "Good" = some h2 → h2 < h1)) :=
  ⟨by norm_num,
   c4_monotonicity 600 (by norm_num) "Residential" (Or.inl rfl) "Good" (Or.inl rfl)⟩

/-- C10 (implicit): the divisor crew efficiency × weather efficiency of
`calculate_labor_hours` is strictly positive (at least 0.9 × 0.8 = 0.72) for
every crew size and recognized weather key, so the division never divides by
zero and the labor hours are strictly positive whenever the area is. -/
theorem c10_divisor_positive :
    (∀ (c : ℕ) (w : String) (cm wm : List (String × ℚ)) (ce we : ℚ),
      EFFICIENCY_FACTORS.lookup "crew_size" = some cm →
      cm.lookup (crew_size_key c) = some ce →
      EFFICIENCY_FACTORS.lookup "weather" = some wm →
      wm.lookup w = some we →
      0.72 ≤ ce * we ∧ 0 < ce * we) ∧
    (∀ (gfa : ℚ) (bt w : String) (c : ℕ), 0 < gfa →
      (bt = "Residential" ∨ bt = "Commercial" ∨ bt = "Industrial") →
      (w = "Good" ∨ w = "Average" ∨ w = "Poor") →
      ∃ lh, calculate_labor_hours gfa bt c w = some lh ∧ 0 < lh) := by
  constructor
  · intro c w cm wm ce we hcm hce hwm hw
    rw [eff_crew] at hcm
    obtain rfl := Option.some.inj hcm
    rw [eff_weather] at hwm
    obtain rfl := Option.some.inj hwm
    rw [crew_lookup c] at hce
    obtain rfl := Option.some.inj hce
    rcases weather_lookup_cases w we hw with ⟨_, rfl⟩ | ⟨_, rfl⟩ | ⟨_, rfl⟩ <;>
      rcases sce_cases c with h | h | h <;> rw [h] <;> norm_num
  · intro gfa bt w c hg hbt hw
    exact ⟨_, clh_eq gfa bt hbt c w hw,
      div_pos (mul_pos (ps_pos bt hbt) hg) (mul_pos (sce_pos c) (swe_pos w hw))⟩

/-- Witness for C10 at crew 20, Good weather, and at gfa 600, Residential. -/
theorem c10_divisor_positive_witness :
    ((0.72:ℚ) ≤ 1.0 * 1.0 ∧ (0:ℚ) < 1.0 * 1.0) ∧
    (∃ lh, calculate_labor_hours 600 "Residential" 20 "Good" = some lh ∧ 0 < lh) :=
  ⟨c10_divisor_positive.1 20 "Good" _ _ 1.0 1.0 eff_crew rfl eff_weather rfl,
   c10_divisor_positive.2 600 "Residential" "Good" 20 (by norm_num)
     (Or.inl rfl) (Or.inl rfl)⟩

lemma pr_res : PLANT_RATES.lookup "Residential" = some 0.08 := rfl

lemma pr_com : PLANT_RATES.lookup "Commercial" = some 0.12 := rfl

lemma pr_ind : PLANT_RATES.lookup "Industrial" = some 0.18 := rfl

/-- C1: for every building type among Residential/Commercial/Industrial,
positive unit prices, labor hours, labor rate and area: material cost is the
sum over the five materials of price × per-unit-area rate × area; labor cost
is hours × rate × 1.15; plant cost is (material + labor) × plant rate; base
cost is material + labor + plant exactly, all components non-negative; and
for Residential with cement price 9800 and area 600 the cement line is
9800 × 0.5 × 600 = 2,940,000. -/
theorem c1_cost_breakdown (bt : String)
    (hbt : bt = "Residential" ∨ bt = "Commercial" ∨ bt = "Industrial")
    (cement blocks steel sand granite lh lr area : ℚ)
    (hcem : 0 < cement) (hbl : 0 < blocks) (hst : 0 < steel) (hsa : 0 < sand)
    (hgr : 0 < granite) (hlh : 0 < lh) (hlr : 0 < lr) (ha : 0 < area)
    (r : List (String × ℚ)) (hr : MATERIAL_RATES.lookup bt = some r)
    (rc rb rs rsa rg pr : ℚ)
    (hrc : r.lookup "cement" = some rc) (hrb : r.lookup "blocks" = some rb)
    (hrs : r.lookup "steel" = some rs) (hrsa : r.lookup "sand" = some rsa)
    (hrg : r.lookup "granite" = some rg) (hpr : PLANT_RATES.lookup bt = some pr) :
    ∃ mc pc,
      material_cost cement blocks steel sand granite bt area = some mc ∧
      mc = cement * rc * area + blocks * rb * area + steel * rs * area +
           sand * rsa * area + granite * rg * area ∧
      labor_cost lh lr = lh * lr * 1.15 ∧
      plant_cost mc (labor_cost lh lr) bt = some pc ∧
      pc = (mc + labor_cost lh lr) * pr ∧
      base_cost mc (labor_cost lh lr) pc = mc + labor_cost lh lr + pc ∧
      0 ≤ mc ∧ 0 ≤ labor_cost lh lr ∧ 0 ≤ pc ∧
      (bt = "Residential" → cement = 9800 → area = 600 →
        cement * rc * area = 2940000) := by
  have hlc : labor_cost lh lr = lh * lr * 1.15 := by
    unfold labor_cost OVERHEAD_PROFIT; norm_num
  have hlc0 : 0 ≤ labor_cost lh lr := by
    unfold labor_cost OVERHEAD_PROFIT
    exact mul_nonneg (mul_nonneg hlh.le hlr.le) (by norm_num)
  rcases hbt with rfl | rfl | rfl
  · rw [mr_res] at hr
    obtain rfl := Option.some.inj hr
    rw [show List.lookup "cement" [("cement", (0.5:ℚ)), ("blocks", 10), ("steel", 0.025),
      ("sand", 0.05), ("granite", 0.03)] = some 0.5 from rfl] at hrc
    obtain rfl := Option.some.inj hrc
    rw [show List.lookup "blocks" [("cement", (0.5:ℚ)), ("blocks", 10), ("steel", 0.025),
      ("sand", 0.05), ("granite", 0.03)] = some 10 from rfl] at hrb
    obtain rfl := Option.some.inj hrb
    rw [show List.lookup "steel" [("cement", (0.5:ℚ)), ("blocks", 10), ("steel", 0.025),
      ("sand", 0.05), ("granite", 0.03)] = some 0.025 from rfl] at hrs
    obtain rfl := Option.some.inj hrs
    rw [show List.lookup "sand" [("cement", (0.5:ℚ)), ("blocks", 10), ("steel", 0.025),
      ("sand", 0.05), ("granite", 0.03)] = some 0.05 from rfl] at hrsa
    obtain rfl := Option.some.inj hrsa
    rw [show List.lookup "granite" [("cement", (0.5:ℚ)), ("blocks", 10), ("steel", 0.025),
      ("sand", 0.05), ("granite", 0.03)] = some 0.03 from rfl] at hrg
    obtain rfl := Option.some.inj hrg
    rw [pr_res] at hpr
    obtain rfl := Option.some.inj hpr
    have hmc : material_cost cement blocks steel sand granite "Residential" area =
        some (cement * 0.5 * area + (blocks * 10 * area + (steel * 0.025 * area +
          (sand * 0.05 * area + granite * 0.03 * area)))) := by
      simp only [material_cost, mr_res, Option.bind_eq_bind, Option.some_bind,
        Option.pure_def, List.sum_cons, List.sum_nil, add_zero,
        show List.lookup "cement" [("cement", (0.5:ℚ)), ("blocks", 10), ("steel", 0.025),
          ("sand", 0.05), ("granite", 0.03)] = some 0.5 from rfl,
        show List.lookup "blocks" [("cement", (0.5:ℚ)), ("blocks", 10), ("steel", 0.025),
          ("sand", 0.05), ("granite", 0.03)] = some 10 from rfl,
        show List.lookup "steel" [("cement", (0.5:ℚ)), ("blocks", 10), ("steel", 0.025),
          ("sand", 0.05), ("granite", 0.03)] = some 0.025 from rfl,
        show List.lookup "sand" [("cement", (0.5:ℚ)), ("blocks", 10), ("steel", 0.025),
          ("sand", 0.05), ("granite", 0.03)] = some 0.05 from rfl,
        show List.lookup "granite" [("cement", (0.5:ℚ)), ("blocks", 10), ("steel", 0.025),
          ("sand", 0.05), ("granite", 0.03)] = some 0.03 from rfl]
    have hmc0 : (0:ℚ) ≤ cement * 0.5 * area + (blocks * 10 * area + (steel * 0.025 * area +
        (sand * 0.05 * area + granite * 0.03 * area))) := by
      have t1 : (0:ℚ) ≤ cement * 0.5 * area :=
        mul_nonneg (mul_nonneg hcem.le (by norm_num)) ha.le
      have t2 : (0:ℚ) ≤ blocks * 10 * area :=
        mul_nonneg (mul_nonneg hbl.le (by norm_num)) ha.le
      have t3 : (0:ℚ) ≤ steel * 0.025 * area :=
        mul_nonneg (mul_nonneg hst.le (by norm_num)) ha.le
      have t4 : (0:ℚ) ≤ sand * 0.05 * area :=
        mul_nonneg (mul_nonneg hsa.le (by norm_num)) ha.le
      have t5 : (0:ℚ) ≤ granite * 0.03 * area :=
        mul_nonneg (mul_nonneg hgr.le (by norm_num)) ha.le
      exact add_nonneg t1 (add_nonneg t2 (add_nonneg t3 (add_nonneg t4 t5)))
    refine ⟨_, _, hmc, by ring, hlc, ?_, rfl, rfl, hmc0, hlc0, ?_, ?_⟩
    · simp only [plant_cost, pr_res, Option.bind_eq_bind, Option.some_bind, Option.pure_def]
    · exact mul_nonneg (add_nonneg hmc0 hlc0) (by norm_num)
    · intro _ hc9800 ha600
      subst hc9800; subst ha600; norm_num
  · rw [mr_com] at hr
    obtain rfl := Option.some.inj hr
    rw [show List.lookup "cement" [("cement", (0.7:ℚ)), ("blocks", 15), ("steel", 0.04),
      ("sand", 0.07), ("granite", 0.05)] = some 0.7 from rfl] at hrc
    obtain rfl := Option.some.inj hrc
    rw [show List.lookup "blocks" [("cement", (0.7:ℚ)), ("blocks", 15), ("steel", 0.04),
      ("sand", 0.07), ("granite", 0.05)] = some 15 from rfl] at hrb
    obtain rfl := Option.some.inj hrb
    rw [show List.lookup "steel" [("cement", (0.7:ℚ)), ("blocks", 15), ("steel", 0.04),
      ("sand", 0.07), ("granite", 0.05)] = some 0.04 from rfl] at hrs
    obtain rfl := Option.some.inj hrs
    rw [show List.lookup "sand" [("cement", (0.7:ℚ)), ("blocks", 15), ("steel", 0.04),
      ("sand", 0.07), ("granite", 0.05)] = some 0.07 from rfl] at hrsa
    obtain rfl := Option.some.inj hrsa
    rw [show List.lookup "granite" [("cement", (0.7:ℚ)), ("blocks", 15), ("steel", 0.04),
      ("sand", 0.07), ("granite", 0.05)] = some 0.05 from rfl] at hrg
    obtain rfl := Option.some.inj hrg
    rw [pr_com] at hpr
    obtain rfl := Option.some.inj hpr
    have hmc : material_cost cement blocks steel sand granite "Commercial" area =
        some (cement * 0.7 * area + (blocks * 15 * area + (steel * 0.04 * area +
          (sand * 0.07 * area + granite * 0.05 * area)))) := by
      simp only [material_cost, mr_com, Option.bind_eq_bind, Option.some_bind,
        Option.pure_def, List.sum_cons, List.sum_nil, add_zero,
        show List.lookup "cement" [("cement", (0.7:ℚ)), ("blocks", 15), ("steel", 0.04),
          ("sand", 0.07), ("granite", 0.05)] = some 0.7 from rfl,
        show List.lookup "blocks" [("cement", (0.7:ℚ)), ("blocks", 15), ("steel", 0.04),
          ("sand", 0.07), ("granite", 0.05)] = some 15 from rfl,
        show List.lookup "steel" [("cement", (0.7:ℚ)), ("blocks", 15), ("steel", 0.04),
          ("sand", 0.07), ("granite", 0.05)] = some 0.04 from rfl,
        show List.lookup "sand" [("cement", (0.7:ℚ)), ("blocks", 15), ("steel", 0.04),
          ("sand", 0.07), ("granite", 0.05)] = some 0.07 from rfl,
        show List.lookup "granite" [("cement", (0.7:ℚ)), ("blocks", 15), ("steel", 0.04),
          ("sand", 0.07), ("granite", 0.05)] = some 0.05 from rfl]
    have hmc0 : (0:ℚ) ≤ cement * 0.7 * area + (blocks * 15 * area + (steel * 0.04 * area +
        (sand * 0.07 * area + granite * 0.05 * area))) := by
      have t1 : (0:ℚ) ≤ cement * 0.7 * area :=
        mul_nonneg (mul_nonneg hcem.le (by norm_num)) ha.le
      have t2 : (0:ℚ) ≤ blocks * 15 * area :=
        mul_nonneg (mul_nonneg hbl.le (by norm_num)) ha.le
      have t3 : (0:ℚ) ≤ steel * 0.04 * area :=
        mul_nonneg (mul_nonneg hst.le (by norm_num)) ha.le
      have t4 : (0:ℚ) ≤ sand * 0.07 * area :=
        mul_nonneg (mul_nonneg hsa.le (by norm_num)) ha.le
      have t5 : (0:ℚ) ≤ granite * 0.05 * area :=
        mul_nonneg (mul_nonneg hgr.le (by norm_num)) ha.le
      exact add_nonneg t1 (add_nonneg t2 (add_nonneg t3 (add_nonneg t4 t5)))
    refine ⟨_, _, hmc, by ring, hlc, ?_, rfl, rfl, hmc0, hlc0, ?_, ?_⟩
    · simp only [plant_cost, pr_com, Option.bind_eq_bind, Option.some_bind, Option.pure_def]
    · exact mul_nonneg (add_nonneg hmc0 hlc0) (by norm_num)
    · intro habs
      exact absurd habs (by decide)
  · rw [mr_ind] at hr
    obtain rfl := Option.some.inj hr
    rw [show List.lookup "cement" [("cement", (1.0:ℚ)), ("blocks", 20), ("steel", 0.06),
      ("sand", 0.10), ("granite", 0.08)] = some 1.0 from rfl] at hrc
    obtain rfl := Option.some.inj hrc
    rw [show List.lookup "blocks" [("cement", (1.0:ℚ)), ("blocks", 20), ("steel", 0.06),
      ("sand", 0.10), ("granite", 0.08)] = some 20 from rfl] at hrb
    obtain rfl := Option.some.inj hrb
    rw [show List.lookup "steel" [("cement", (1.0:ℚ)), ("blocks", 20), ("steel", 0.06),
      ("sand", 0.10), ("granite", 0.08)] = some 0.06 from rfl] at hrs
    obtain rfl := Option.some.inj hrs
    rw [show List.lookup "sand" [("cement", (1.0:ℚ)), ("blocks", 20), ("steel", 0.06),
      ("sand", 0.10), ("granite", 0.08)] = some 0.10 from rfl] at hrsa
    obtain rfl := Option.some.inj hrsa
    rw [show List.lookup "granite" [("cement", (1.0:ℚ)), ("blocks", 20), ("steel", 0.06),
      ("sand", 0.10), ("granite", 0.08)] = some 0.08 from rfl] at hrg
    obtain rfl := Option.some.inj hrg
    rw [pr_ind] at hpr
    obtain rfl := Option.some.inj hpr
    have hmc : material_cost cement blocks steel sand granite "Industrial" area =
        some (cement * 1.0 * area + (blocks * 20 * area + (steel * 0.06 * area +
          (sand * 0.10 * area + granite * 0.08 * area)))) := by
      simp only [material_cost, mr_ind, Option.bind_eq_bind, Option.some_bind,
        Option.pure_def, List.sum_cons, List.sum_nil, add_zero,
        show List.lookup "cement" [("cement", (1.0:ℚ)), ("blocks", 20), ("steel", 0.06),
          ("sand", 0.10), ("granite", 0.08)] = some 1.0 from rfl,
        show List.lookup "blocks" [("cement", (1.0:ℚ)), ("blocks", 20), ("steel", 0.06),
          ("sand", 0.10), ("granite", 0.08)] = some 20 from rfl,
        show List.lookup "steel" [("cement", (1.0:ℚ)), ("blocks", 20), ("steel", 0.06),
          ("sand", 0.10), ("granite", 0.08)] = some 0.06 from rfl,
        show List.lookup "sand" [("cement", (1.0:ℚ)), ("blocks", 20), ("steel", 0.06),
          ("sand", 0.10), ("granite", 0.08)] = some 0.10 from rfl,
        show List.lookup "granite" [("cement", (1.0:ℚ)), ("blocks", 20), ("steel", 0.06),
          ("sand", 0.10), ("granite", 0.08)] = some 0.08 from rfl]
    have hmc0 : (0:ℚ) ≤ cement * 1.0 * area + (blocks * 20 * area + (steel * 0.06 * area +
        (sand * 0.10 * area + granite * 0.08 * area))) := by
      have t1 : (0:ℚ) ≤ cement * 1.0 * area :=
        mul_nonneg (mul_nonneg hcem.le (by norm_num)) ha.le
      have t2 : (0:ℚ) ≤ blocks * 20 * area :=
        mul_nonneg (mul_nonneg hbl.le (by norm_num)) ha.le
      have t3 : (0:ℚ) ≤ steel * 0.06 * area :=
        mul_nonneg (mul_nonneg hst.le (by norm_num)) ha.le
      have t4 : (0:ℚ) ≤ sand * 0.10 * area :=
        mul_nonneg (mul_nonneg hsa.le (by norm_num)) ha.le
      have t5 : (0:ℚ) ≤ granite * 0.08 * area :=
        mul_nonneg (mul_nonneg hgr.le (by norm_num)) ha.le
      exact add_nonneg t1 (add_nonneg t2 (add_nonneg t3 (add_nonneg t4 t5)))
    refine ⟨_, _, hmc, by ring, hlc, ?_, rfl, rfl, hmc0, hlc0, ?_, ?_⟩
    · simp only [plant_cost, pr_ind, Option.bind_eq_bind, Option.some_bind, Option.pure_def]
    · exact mul_nonneg (add_nonneg hmc0 hlc0) (by norm_num)
    · intro habs
      exact absurd habs (by decide)

/-- Witness for C1 at Residential with the form's default prices, cement 9800
and area 600. -/
theorem c1_cost_breakdown_witness :
    (0:ℚ) < 9800 ∧ (0:ℚ) < 600 ∧
    MATERIAL_RATES.lookup "Residential" =
      some [("cement", 0.5), ("blocks", 10), ("steel", 0.025), ("sand", 0.05), ("granite", 0.03)] ∧
    PLANT_RATES.lookup "Residential" = some 0.08 ∧
    (∃ mc pc,
      material_cost 9800 600 850000 35000 19500 "Residential" 600 = some mc ∧
      mc = 9800 * 0.5 * 600 + 600 * 10 * 600 + 850000 * 0.025 * 600 +
           35000 * 0.05 * 600 + 19500 * 0.03 * 600 ∧
      labor_cost 2820 1000 = 2820 * 1000 * 1.15 ∧
      plant_cost mc (labor_cost 2820 1000) "Residential" = some pc ∧
      pc = (mc + labor_cost 2820 1000) * 0.08 ∧
      base_cost mc (labor_cost 2820 1000) pc = mc + labor_cost 2820 1000 + pc ∧
      0 ≤ mc ∧ 0 ≤ labor_cost 2820 1000 ∧ 0 ≤ pc ∧
      ("Residential" = "Residential" → (9800:ℚ) = 9800 → (600:ℚ) = 600 →
        (9800:ℚ) * 0.5 * 600 = 2940000)) :=
  ⟨by norm_num, by norm_num, mr_res, pr_res,
   c1_cost_breakdown "Residential" (Or.inl rfl) 9800 600 850000 35000 19500 2820 1000 600
     (by norm_num) (by norm_num) (by norm_num) (by norm_num) (by norm_num)
     (by norm_num) (by norm_num) (by norm_num)
     _ mr_res 0.5 10 0.025 0.05 0.03 0.08 rfl rfl rfl rfl rfl pr_res⟩

lemma mem_of_lookup_some {β : Type} (l : List (String × β)) (k : String) (v : β)
    (h : l.lookup k = some v) : k ∈ l.map Prod.fst := by
  by_contra hn
  rw [← lookup_eq_none_iff] at hn
  rw [h] at hn
  cases hn

lemma weather_lookup_none (w : String) (h1 : ¬ w = "Good") (h2 : ¬ w = "Average")
    (h3 : ¬ w = "Poor") :
    List.lookup w [("Good", (1.0:ℚ)), ("Average", 0.9), ("Poor", 0.8)] = none := by
  have e1 : (w == "Good") = false := by simp [h1]
  have e2 : (w == "Average") = false := by simp [h2]
  have e3 : (w == "Poor") = false := by simp [h3]
  simp [List.lookup, e1, e2, e3]

lemma fnd_res : List.lookup "foundation"
    [("foundation", (1.2:ℚ)), ("structural", 2.0), ("finishing", 1.5)] = some 1.2 := rfl

lemma str_res : List.lookup "structural"
    [("foundation", (1.2:ℚ)), ("structural", 2.0), ("finishing", 1.5)] = some 2.0 := rfl

lemma fin_res : List.lookup "finishing"
    [("foundation", (1.2:ℚ)), ("structural", 2.0), ("finishing", 1.5)] = some 1.5 := rfl

lemma fnd_com : List.lookup "foundation"
    [("foundation", (1.5:ℚ)), ("structural", 2.5), ("finishing", 2.0)] = some 1.5 := rfl

lemma str_com : List.lookup "structural"
    [("foundation", (1.5:ℚ)), ("structural", 2.5), ("finishing", 2.0)] = some 2.5 := rfl

lemma fin_com : List.lookup "finishing"
    [("foundation", (1.5:ℚ)), ("structural", 2.5), ("finishing", 2.0)] = some 2.0 := rfl

lemma fnd_ind : List.lookup "foundation"
    [("foundation", (2.0:ℚ)), ("structural", 3.0), ("finishing", 2.5)] = some 2.0 := rfl

lemma str_ind : List.lookup "structural"
    [("foundation", (2.0:ℚ)), ("structural", 3.0), ("finishing", 2.5)] = some 3.0 := rfl

lemma fin_ind : List.lookup "finishing"
    [("foundation", (2.0:ℚ)), ("structural", 3.0), ("finishing", 2.5)] = some 2.5 := rfl

/-- C8: every calculator lookup (shape in `calculate_gfa`, soil and access in
`calculate_site_difficulty`, building type and weather in
`calculate_labor_hours`) fails, with no fallback value, if and only if the
given key is not present in the corresponding table; for recognized keys no
error is raised. -/
theorem c8_lookup_failure :
    (∀ (l b : ℚ) (st : ℕ) (shape : String),
      calculate_gfa l b st shape = none ↔ shape ∉ SHAPE_COMPLEXITY.map Prod.fst) ∧
    (∀ (soil access : String),
      calculate_site_difficulty soil access = none ↔
        soil ∉ soil_map.map Prod.fst ∨ access ∉ access_map.map Prod.fst) ∧
    (∀ (gfa : ℚ) (bt : String) (c : ℕ) (w : String),
      calculate_labor_hours gfa bt c w = none ↔
        bt ∉ LABOR_PRODUCTIVITY_RATES.map Prod.fst ∨
        w ∉ ((EFFICIENCY_FACTORS.lookup "weather").getD []).map Prod.fst) := by
  refine ⟨?_, ?_, ?_⟩
  · intro l b st shape
    cases hm : SHAPE_COMPLEXITY.lookup shape with
    | none =>
      have hmem := (lookup_eq_none_iff _ _).mp hm
      simp [calculate_gfa, hm, hmem]
    | some m =>
      have hmem := mem_of_lookup_some _ _ _ hm
      simp [calculate_gfa, hm, hmem]
  · intro soil access
    cases hs : soil_map.lookup soil with
    | none =>
      have hmem := (lookup_eq_none_iff _ _).mp hs
      simp [calculate_site_difficulty, hs, hmem]
    | some sv =>
      have hsm := mem_of_lookup_some _ _ _ hs
      cases ha : access_map.lookup access with
      | none =>
        have hmem := (lookup_eq_none_iff _ _).mp ha
        simp [calculate_site_difficulty, hs, ha, hsm, hmem]
      | some av =>
        have ham := mem_of_lookup_some _ _ _ ha
        simp [calculate_site_difficulty, hs, ha, hsm, ham]
  · intro gfa bt c w
    rw [show (EFFICIENCY_FACTORS.lookup "weather").getD ([] : List (String × ℚ)) =
      [("Good", (1.0:ℚ)), ("Average", 0.9), ("Poor", 0.8)] from rfl]
    cases hbt : LABOR_PRODUCTIVITY_RATES.lookup bt with
    | none =>
      have hmem := (lookup_eq_none_iff _ _).mp hbt
      simp [calculate_labor_hours, hbt, hmem]
    | some r =>
      have hbm := mem_of_lookup_some _ _ _ hbt
      rcases lpr_lookup_cases bt r hbt with ⟨hbe, rfl⟩ | ⟨hbe, rfl⟩ | ⟨hbe, rfl⟩ <;>
        cases hw : List.lookup w [("Good", (1.0:ℚ)), ("Average", 0.9), ("Poor", 0.8)] with
      | none =>
        have hwmem := (lookup_eq_none_iff _ _).mp hw
        simp [calculate_labor_hours, hbt, hbm, hwmem, eff_crew, eff_weather, crew_lookup,
          hw, fnd_res, str_res, fin_res, fnd_com, str_com, fin_com, fnd_ind, str_ind, fin_ind]
        simpa using hwmem
      | some we =>
        have hwm := mem_of_lookup_some _ _ _ hw
        have hwcases : w = "Good" ∨ w = "Average" ∨ w = "Poor" := by simpa using hwm
        simp [calculate_labor_hours, hbt, hbm, hwm, eff_crew, eff_weather, crew_lookup,
          hw, fnd_res, str_res, fin_res, fnd_com, str_com, fin_com, fnd_ind, str_ind, fin_ind]
        tauto

/-- The submit pipeline at the form's default inputs assembles this concrete
feature record. -/
lemma assembled_record_defaults :
    assembled_record 20 15 2 "Rectangular" "Residential" "Urban" "Rocky" "Good" "Good"
      9800 600 850000 35000 19500 1000 20 3 =
    some (input_data 20 15 2 "Rectangular" "Residential" "Urban" "Rocky" "Good" "Good"
      9800 600 850000 35000 19500 1000 3243000 20 3 1.5 1.0 0.5) := by
  have hg : calculate_gfa 20 15 2 "Rectangular" = some 600 := by
    simp only [calculate_gfa, sc_rect, Option.bind_eq_bind, Option.some_bind, Option.pure_def]
    norm_num
  have hlh : calculate_labor_hours 600 "Residential" 20 "Good" = some 2820 := by
    rw [clh_eq 600 "Residential" (Or.inl rfl) 20 "Good" (Or.inl rfl)]
    simp only [productivity_sum, String.reduceEq, reduceIte, swe_good]
    norm_num [spec_crew_efficiency]
  have hsd : calculate_site_difficulty "Rocky" "Good" = some 1.5 := by
    simp only [calculate_site_difficulty, soil_rocky,
      show access_map.lookup "Good" = some 1.0 from rfl,
      Option.bind_eq_bind, Option.some_bind, Option.pure_def]
    norm_num
  simp only [assembled_record, hg, hlh, hsd, sc_rect, Option.bind_eq_bind, Option.some_bind,
    Option.pure_def, Option.some.injEq]
  norm_num [input_data, labor_cost, OVERHEAD_PROFIT, vertical_complexity]

/-- C7 counterexample: at the form's default inputs the assembled feature
record has 21 named fields, not 20 as the claim states. -/
theorem c7_field_count_counterexample :
    (assembled_record 20 15 2 "Rectangular" "Residential" "Urban" "Rocky" "Good" "Good"
      9800 600 850000 35000 19500 1000 20 3).map List.length = some 21 ∧
    (assembled_record 20 15 2 "Rectangular" "Residential" "Urban" "Rocky" "Good" "Good"
      9800 600 850000 35000 19500 1000 20 3).map List.length ≠ some 20 := by
  rw [assembled_record_defaults]
  exact ⟨rfl, by simp [input_data]⟩

/-- C7 amended: on every estimate request the adapter assembles a fixed-schema
feature record with exactly 21 named fields (geometry, categorical site and
weather attributes, the five material prices and the labor rate, computed labor
cost, worker count, permit duration, and the three complexity factors) and
passes it through the preprocessor and then the model to obtain a single
predicted total cost scalar. -/
theorem c7_feature_record_amended {V : Type}
    (transform : List (String × FeatureValue) → V) (predict : V → ℚ)
    (length breadth : ℚ) (storeys : ℕ)
    (shape building_type location soil access weather : String)
    (cement blocks steel sand granite labor_rate : ℚ) (workers permit : ℕ)
    (r : List (String × FeatureValue))
    (h : assembled_record length breadth storeys shape building_type location soil access
      weather cement blocks steel sand granite labor_rate workers permit = some r) :
    r.map Prod.fst = ["Length", "Breadth", "Storeys", "Shape", "Type", "Location", "Soil",
      "Access", "Weather", "Cement_Price", "Block_Price", "Steel_Price", "Sand_Price",
      "Granite_Price", "Labor_Rate", "Labor_Cost", "Workers", "Permit_Months",
      "Site_Difficulty", "Shape_Complexity", "Vertical_Complexity"] ∧
    (r.map Prod.fst).length = 21 ∧
    generate_estimate transform predict length breadth storeys shape building_type location
      soil access weather cement blocks steel sand granite labor_rate workers permit =
      some (predict (transform r)) := by
  have h' := h
  simp only [assembled_record, Option.bind_eq_bind, Option.bind_eq_some, Option.pure_def,
    Option.some.injEq] at h
  obtain ⟨g, hg, lhrs, hlh, sd, hsd, sc, hsc, hrec⟩ := h
  subst hrec
  refine ⟨rfl, rfl, ?_⟩
  simp only [generate_estimate, h', Option.map_some']

/-- Witness for the amended C7 at the form's default inputs, with a trivial
preprocessor and model. -/
theorem c7_feature_record_amended_witness :
    ((input_data 20 15 2 "Rectangular" "Residential" "Urban" "Rocky" "Good" "Good"
        9800 600 850000 35000 19500 1000 3243000 20 3 1.5 1.0 0.5).map Prod.fst =
      ["Length", "Breadth", "Storeys", "Shape", "Type", "Location", "Soil",
       "Access", "Weather", "Cement_Price", "Block_Price", "Steel_Price", "Sand_Price",
       "Granite_Price", "Labor_Rate", "Labor_Cost", "Workers", "Permit_Months",
       "Site_Difficulty", "Shape_Complexity", "Vertical_Complexity"]) ∧
    ((input_data 20 15 2 "Rectangular" "Residential" "Urban" "Rocky" "Good" "Good"
        9800 600 850000 35000 19500 1000 3243000 20 3 1.5 1.0 0.5).map Prod.fst).length = 21 ∧
    generate_estimate (fun _ => ()) (fun _ => (0:ℚ)) 20 15 2 "Rectangular" "Residential"
      "Urban" "Rocky" "Good" "Good" 9800 600 850000 35000 19500 1000 20 3 = some 0 :=
  c7_feature_record_amended (fun _ => ()) (fun _ => (0:ℚ)) 20 15 2 "Rectangular"
    "Residential" "Urban" "Rocky" "Good" "Good" 9800 600 850000 35000 19500 1000 20 3
    _ assembled_record_defaults

/-- C9 (implicit): the vertical complexity factor supplied to the model
feature record equals storey count × 0.25, for every storey count and every
assembling request. -/
theorem c9_vertical_complexity (length breadth : ℚ) (storeys : ℕ)
    (shape building_type location soil access weather : String)
    (cement blocks steel sand granite labor_rate : ℚ) (workers permit : ℕ)
    (r : List (String × FeatureValue))
    (h : assembled_record length breadth storeys shape building_type location soil access
      weather cement blocks steel sand granite labor_rate workers permit = some r) :
    r.lookup "Vertical_Complexity" = some (.num ((storeys : ℚ) * 0.25)) := by
  simp only [assembled_record, Option.bind_eq_bind, Option.bind_eq_some, Option.pure_def,
    Option.some.injEq] at h
  obtain ⟨g, hg, lhrs, hlh, sd, hsd, sc, hsc, hrec⟩ := h
  subst hrec
  rfl

/-- Witness for C9 at the form's default inputs (storeys = 2). -/
theorem c9_vertical_complexity_witness :
    List.lookup "Vertical_Complexity"
      (input_data 20 15 2 "Rectangular" "Residential" "Urban" "Rocky" "Good" "Good"
        9800 600 850000 35000 19500 1000 3243000 20 3 1.5 1.0 0.5) =
      some (FeatureValue.num (((2:ℕ) : ℚ) * 0.25)) :=
  c9_vertical_complexity 20 15 2 "Rectangular" "Residential" "Urban" "Rocky" "Good" "Good"
    9800 600 850000 35000 19500 1000 20 3 _ assembled_record_defaults

end CostEstimator
